import Mathlib

/-!
Verification of `tag_parser/basetags.py` (django-tag-parser).

Shallow embedding of the base template-tag node classes:
`BaseNode`, `BaseInclusionNode` and `BaseAssignmentOrInclusionNode`.

Modelling conventions:

* Python values that appear in the template context are modelled by the
  inductive `Value`; Python `None` is `Value.vNone`.
* A Django `Context` is modelled by `Ctx`: an association list of
  variable bindings (first match wins, assignment prepends, which has
  the same lookup semantics as setting a key into the top dict of the
  Django context stack) together with the `autoescape` flag.
* Exceptions are modelled with `Except TagError`; `TemplateSyntaxError`
  and `ImproperlyConfigured` are the two constructors of `TagError`.
* Class-level attributes (`allowed_kwargs`, `min_args`, `max_args`,
  `compile_args`, `compile_kwargs`) are gathered in `TagConfig`, whose
  field defaults are the defaults of the `BaseNode` class.
* The functions `parse_token_kwargs` and `parse_as_var` live in
  `tag_parser/parser.py`, outside the file under verification, as do
  Django's `get_template` and node-list rendering; they are passed in
  as explicit arguments (an `Env` record for the rendering side).
* Mutation of `self` (the node-list cache in
  `BaseInclusionNode.render_tag`) and of the context (assignment of
  `as_var`) is modelled by returning the updated node / context.
-/

/-- A Python value stored in a template context. `vNone` is Python `None`. -/
inductive Value where
  | vNone : Value
  | vBool : Bool → Value
  | vInt : Int → Value
  | vStr : String → Value
deriving DecidableEq, Repr

/-- Association-list lookup, first binding wins. -/
def sget {α : Type} : List (String × α) → String → Option α
  | [], _ => none
  | (k', v) :: rest, k => if k' = k then some v else sget rest k

/-- A Django template `Context`: variable bindings plus the autoescape flag. -/
structure Ctx where
  vars : List (String × Value)
  autoescape : Bool
deriving DecidableEq, Repr

/-- `context[key]` lookup (as an `Option`). -/
def Ctx.get (c : Ctx) (k : String) : Option Value :=
  sget c.vars k

/-- `context.get(key, default)`. -/
def Ctx.getDefault (c : Ctx) (k : String) (d : Value) : Value :=
  (c.get k).getD d

/-- `context.has_key(key)`. -/
def Ctx.has_key (c : Ctx) (k : String) : Bool :=
  (c.get k).isSome

/-- `context[key] = value`: bind `key` in the top of the context stack. -/
def Ctx.set (c : Ctx) (k : String) (v : Value) : Ctx :=
  { c with vars := (k, v) :: c.vars }

/-- The two exception classes raised by `basetags.py`. -/
inductive TagError where
  | templateSyntaxError : String → TagError
  | improperlyConfigured : String → TagError
deriving DecidableEq, Repr

/-- A compiled filter expression, as produced by
`parser.compile_filter`: either a context-variable reference or a
literal. `resolve` is `FilterExpression.resolve(context)`. -/
inductive FilterExpr where
  | var : String → FilterExpr
  | lit : Value → FilterExpr
deriving DecidableEq, Repr

/-- `expr.resolve(context)`: look a variable up in the context
(Django resolves a missing variable to the empty default), or return
the literal. -/
def FilterExpr.resolve (e : FilterExpr) (c : Ctx) : Value :=
  match e with
  | .var n => (c.get n).getD Value.vNone
  | .lit v => v

/-- The class-level attributes of a `BaseNode` subclass.  The field
defaults are the values set on `BaseNode` itself. -/
structure TagConfig where
  allowed_kwargs : List String := []
  min_args : Option Nat := some 0
  max_args : Option Nat := some 0
  compile_args : Bool := true
  compile_kwargs : Bool := true
deriving DecidableEq, Repr

/-- The instance state of a `BaseNode`: `self.tag_name`, `self.args`,
`self.kwargs` as stored by `BaseNode.__init__`. -/
structure BaseNode where
  tag_name : String
  args : List FilterExpr
  kwargs : List (String × FilterExpr)
deriving DecidableEq, Repr

/-- `cls.min_args is not None and len(args) < cls.min_args`. -/
def belowMin (min_args : Option Nat) (n : Nat) : Bool :=
  match min_args with
  | some m => decide (n < m)
  | none => false

/-- `cls.max_args is not None and len(args) > cls.max_args`. -/
def aboveMax (max_args : Option Nat) (n : Nat) : Bool :=
  match max_args with
  | some m => decide (n > m)
  | none => false

/-- `BaseNode.validate_args`: check the positional-argument count
against `min_args` / `max_args` (`none` disables a check).  The
`kwargs` parameter is accepted, as in the source, but never used. -/
def validate_args (cfg : TagConfig) (tag_name : String)
    (args : List FilterExpr) (kwargs : List (String × FilterExpr)) :
    Except TagError Unit :=
  if belowMin cfg.min_args args.length then
    if cfg.min_args = some 1 then
      Except.error (.templateSyntaxError
        (s!"'{tag_name}' tag requires at least 1 argument"))
    else
      Except.error (.templateSyntaxError
        (s!"'{tag_name}' tag requires at least " ++
          toString (cfg.min_args.getD 0) ++ " arguments"))
  else if aboveMax cfg.max_args args.length then
    if cfg.max_args = some 0 then
      if cfg.allowed_kwargs ≠ [] then
        Except.error (.templateSyntaxError
          (s!"'{tag_name}' tag only allows keywords arguments, for example " ++
            (cfg.allowed_kwargs.headD "") ++ "=\"...\"."))
      else
        Except.error (.templateSyntaxError
          (s!"'{tag_name}' tag doesn't support any arguments"))
    else if cfg.max_args = some 1 then
      Except.error (.templateSyntaxError
        (s!"'{tag_name}' tag only allows 1 argument."))
    else
      Except.error (.templateSyntaxError
        (s!"'{tag_name}' tag only allows " ++
          toString (cfg.max_args.getD 0) ++ " arguments."))
  else
    Except.ok ()

/-- `BaseNode.get_request`: fetch `context['request']`, raising
`ImproperlyConfigured` when the context has no `request` variable. -/
def BaseNode.get_request (node : BaseNode) (context : Ctx) :
    Except TagError Value :=
  if ¬ context.has_key "request" then
    Except.error (.improperlyConfigured
      ("The '" ++ node.tag_name ++
        "' tag requires a 'request' variable in the template context."))
  else
    Except.ok ((context.get "request").getD Value.vNone)

/-- An argument as it is handed to `render_tag`: already resolved to a
value when the corresponding `compile_*` flag is set, or the raw stored
expression when it is not. -/
inductive TagArg where
  | resolved : Value → TagArg
  | unresolved : FilterExpr → TagArg
deriving DecidableEq, Repr

/-- The positional arguments `BaseNode.render` computes:
`[expr.resolve(context) for expr in self.args] if self.compile_args else self.args`. -/
def BaseNode.render_args (cfg : TagConfig) (node : BaseNode) (context : Ctx) :
    List TagArg :=
  if cfg.compile_args then
    node.args.map (fun expr => .resolved (expr.resolve context))
  else
    node.args.map .unresolved

/-- The keyword arguments `BaseNode.render` computes:
`dict([(name, expr.resolve(context)) for name, expr in self.kwargs.iteritems()])
if self.compile_kwargs else self.kwargs`. -/
def BaseNode.render_kwargs (cfg : TagConfig) (node : BaseNode) (context : Ctx) :
    List (String × TagArg) :=
  if cfg.compile_kwargs then
    node.kwargs.map (fun p => (p.1, .resolved (p.2.resolve context)))
  else
    node.kwargs.map (fun p => (p.1, .unresolved p.2))

/-- `BaseNode.render`: resolve the stored filter expressions and call
`render_tag` (a subclass hook, passed as a function) on the results. -/
def BaseNode.render (cfg : TagConfig) (node : BaseNode)
    (render_tag : Ctx → List TagArg → List (String × TagArg) → String)
    (context : Ctx) : String :=
  render_tag context (node.render_args cfg context) (node.render_kwargs cfg context)

/-- The result of `parse_token_kwargs`: the tag name, the positional
arguments and the recognized keyword arguments. -/
structure ParsedTag where
  tag_name : String
  args : List FilterExpr
  kwargs : List (String × FilterExpr)
deriving DecidableEq, Repr

/-- `BaseNode.parse`: run `parse_token_kwargs` (external, passed in as
a function of the allowed keywords and the two compile flags, closed
over `parser` and `token`), validate the arity, then instantiate the
node.  Either external parsing or validation can raise. -/
def BaseNode.parse (cfg : TagConfig)
    (parse_token_kwargs : List String → Bool → Bool → Except TagError ParsedTag) :
    Except TagError BaseNode :=
  match parse_token_kwargs cfg.allowed_kwargs cfg.compile_args cfg.compile_kwargs with
  | .error e => .error e
  | .ok p =>
    match validate_args cfg p.tag_name p.args p.kwargs with
    | .error e => .error e
    | .ok _ => .ok { tag_name := p.tag_name, args := p.args, kwargs := p.kwargs }

/-- The instance state of a `BaseInclusionNode`: the inherited
`BaseNode` fields, the class attribute `template_name` (default
`None`) and the lazily cached `self.nodelist` (absent until the first
render). -/
structure InclusionNode extends BaseNode where
  template_name : Value := Value.vNone
  nodelist : Option (List String) := none
deriving DecidableEq, Repr

/-- `BaseInclusionNode.get_template_name`:
`tag_kwargs.get('template', self.template_name)`. -/
def InclusionNode.get_template_name (node : InclusionNode)
    (tag_args : List Value) (tag_kwargs : List (String × Value)) : Value :=
  (sget tag_kwargs "template").getD node.template_name

/-- `BaseInclusionNode.get_context`: wrap the context data in a fresh
`Context` carrying the parent's autoescape flag, then copy the parent's
`csrf_token` into it when that token is present and not `None`. -/
def get_context (parent_context : Ctx) (data : List (String × Value)) : Ctx :=
  let new_context : Ctx := { vars := data, autoescape := parent_context.autoescape }
  let csrf_token := parent_context.getDefault "csrf_token" Value.vNone
  if csrf_token ≠ Value.vNone then
    new_context.set "csrf_token" csrf_token
  else
    new_context

/-- The external collaborators of `BaseInclusionNode.render_tag`:
Django's `get_template` (loading a template's node list by name) and
the rendering of one node of a node list against a context. -/
structure Env where
  get_template : Value → List String
  renderNode : String → Ctx → String

/-- `nodelist.render(context)`: concatenate the renderings of the nodes. -/
def Env.renderNodelist (env : Env) (nodelist : List String) (context : Ctx) :
    String :=
  String.join (nodelist.map (fun n => env.renderNode n context))

/-- Python truthiness of `getattr(self, 'nodelist', None)`: false for
`None` and for an empty node list. -/
def nodelistTruthy (nodelist : Option (List String)) : Bool :=
  match nodelist with
  | none => false
  | some nl => !nl.isEmpty

/-- `BaseInclusionNode.render_tag`: fetch and cache the template's node
list if not already cached, build the sub-context from
`get_context_data` (a subclass hook, passed as a function) via
`get_context`, and render the node list.  Returns the output together
with the (possibly updated) node. -/
def InclusionNode.render_tag (env : Env)
    (get_context_data : Ctx → List Value → List (String × Value) → List (String × Value))
    (node : InclusionNode) (context : Ctx)
    (tag_args : List Value) (tag_kwargs : List (String × Value)) :
    String × InclusionNode :=
  let node :=
    if nodelistTruthy node.nodelist then node
    else { node with
      nodelist := some (env.get_template (node.get_template_name tag_args tag_kwargs)) }
  let data := get_context_data context tag_args tag_kwargs
  let new_context := get_context context data
  (env.renderNodelist (node.nodelist.getD []) new_context, node)

/-- The instance state of a `BaseAssignmentOrInclusionNode`: the
inherited fields, `self.as_var` and the class attribute
`context_value_name` (default `'value'`). -/
structure AssignOrInclNode extends InclusionNode where
  as_var : Option String
  context_value_name : String := "value"
deriving DecidableEq, Repr

/-- Python truthiness of `self.as_var`: `None` and the empty string are
falsy. -/
def asVarTruthy (as_var : Option String) : Bool :=
  match as_var with
  | none => false
  | some s => s ≠ ""

/-- The allowed-keywords list `BaseAssignmentOrInclusionNode.parse`
hands to `parse_token_kwargs`: `('template',) + cls.allowed_kwargs`. -/
def AssignOrInclNode.parse_allowed_kwargs (cfg : TagConfig) : List String :=
  "template" :: cfg.allowed_kwargs

/-- `BaseAssignmentOrInclusionNode.parse`: split off the `as var`
suffix, parse the remaining bits with `'template'` prepended to the
class's allowed keywords, validate only the positional arguments, then
instantiate.  `parse_as_var` and `parse_token_kwargs` are external and
passed in (closed over the token and the returned bits). -/
def AssignOrInclNode.parse (cfg : TagConfig)
    (parse_as_var : Except TagError (Option String))
    (parse_token_kwargs : List String → Bool → Bool → Except TagError ParsedTag) :
    Except TagError AssignOrInclNode :=
  match parse_as_var with
  | .error e => .error e
  | .ok as_var =>
    match parse_token_kwargs (AssignOrInclNode.parse_allowed_kwargs cfg)
        cfg.compile_args cfg.compile_kwargs with
    | .error e => .error e
    | .ok p =>
      match validate_args cfg p.tag_name p.args [] with
      | .error e => .error e
      | .ok _ => .ok { tag_name := p.tag_name, args := p.args, kwargs := p.kwargs,
                       as_var := as_var }

/-- `BaseAssignmentOrInclusionNode.get_context_data`: by default
`{self.context_value_name: self.get_value(*tag_args, **tag_kwargs)}`.
`get_value` is a subclass hook, passed as a function. -/
def AssignOrInclNode.get_context_data
    (get_value : List Value → List (String × Value) → Value)
    (node : AssignOrInclNode) (parent_context : Ctx)
    (tag_args : List Value) (tag_kwargs : List (String × Value)) :
    List (String × Value) :=
  [(node.context_value_name, get_value tag_args tag_kwargs)]

/-- `BaseAssignmentOrInclusionNode.render_tag`: when `as_var` is truthy,
assign `get_value(...)` to it in the parent context and return the empty
string; otherwise render through the inclusion machinery of the base
class.  Returns the output, the (possibly updated) context and the
(possibly updated) node. -/
def AssignOrInclNode.render_tag (env : Env)
    (get_value : List Value → List (String × Value) → Value)
    (node : AssignOrInclNode) (context : Ctx)
    (tag_args : List Value) (tag_kwargs : List (String × Value)) :
    String × Ctx × AssignOrInclNode :=
  if asVarTruthy node.as_var then
    ("", context.set (node.as_var.getD "") (get_value tag_args tag_kwargs), node)
  else
    let r := node.toInclusionNode.render_tag env
      (fun pc a k => node.get_context_data get_value pc a k)
      context tag_args tag_kwargs
    (r.1, context, { node with toInclusionNode := r.2 })

/-! ## Helper lemmas -/

theorem belowMin_iff (o : Option Nat) (n : Nat) :
    belowMin o n = true ↔ ∃ m, o = some m ∧ n < m := by
  cases o <;> simp [belowMin]

theorem belowMin_false_iff (o : Option Nat) (n : Nat) :
    belowMin o n = false ↔ ∀ m, o = some m → m ≤ n := by
  cases o <;> simp [belowMin]

theorem aboveMax_iff (o : Option Nat) (n : Nat) :
    aboveMax o n = true ↔ ∃ m, o = some m ∧ m < n := by
  cases o <;> simp [aboveMax]

theorem aboveMax_false_iff (o : Option Nat) (n : Nat) :
    aboveMax o n = false ↔ ∀ m, o = some m → n ≤ m := by
  cases o <;> simp [aboveMax]

/-- `validate_args` succeeds exactly when the positional-argument count
satisfies every declared bound. -/
theorem validate_args_ok_iff (cfg : TagConfig) (tag_name : String)
    (args : List FilterExpr) (kwargs : List (String × FilterExpr)) :
    validate_args cfg tag_name args kwargs = Except.ok () ↔
      ((∀ m, cfg.min_args = some m → m ≤ args.length) ∧
       (∀ M, cfg.max_args = some M → args.length ≤ M)) := by
  unfold validate_args
  by_cases h1 : belowMin cfg.min_args args.length
  · rw [if_pos h1]
    rcases (belowMin_iff _ _).mp h1 with ⟨m, hm, hlt⟩
    constructor
    · intro h
      split_ifs at h
    · rintro ⟨hmin, _⟩
      have := hmin m hm
      omega
  · rw [if_neg h1]
    by_cases h2 : aboveMax cfg.max_args args.length
    · rw [if_pos h2]
      rcases (aboveMax_iff _ _).mp h2 with ⟨M, hM, hgt⟩
      constructor
      · intro h
        split_ifs at h
      · rintro ⟨_, hmax⟩
        have := hmax M hM
        omega
    · rw [if_neg h2]
      refine ⟨fun _ => ⟨?_, ?_⟩, fun _ => rfl⟩
      · exact (belowMin_false_iff _ _).mp (by simpa using h1)
      · exact (aboveMax_false_iff _ _).mp (by simpa using h2)

/-- A failing `validate_args` always raises `TemplateSyntaxError`. -/
theorem validate_args_error_exists (cfg : TagConfig) (tag_name : String)
    (args : List FilterExpr) (kwargs : List (String × FilterExpr))
    (h : validate_args cfg tag_name args kwargs ≠ Except.ok ()) :
    ∃ msg, validate_args cfg tag_name args kwargs =
      Except.error (TagError.templateSyntaxError msg) := by
  unfold validate_args at h ⊢
  split_ifs at h ⊢ <;> first | exact ⟨_, rfl⟩ | simp_all

/-- `validate_args` never reads its keyword arguments. -/
theorem validate_args_kwargs_irrel (cfg : TagConfig) (tag_name : String)
    (args : List FilterExpr) (kwargs kwargs' : List (String × FilterExpr)) :
    validate_args cfg tag_name args kwargs =
      validate_args cfg tag_name args kwargs' := rfl

/-! ## Claims -/

/-- C1: `validate_args` raises a `TemplateSyntaxError` when `min_args`
is not `None` and the positional-argument count is below it, or when
`max_args` is not `None` and the count is above it; it returns normally
exactly when the count lies within every declared bound (a `None` bound
imposing nothing). -/
theorem claim_C1 (cfg : TagConfig) (tag_name : String)
    (args : List FilterExpr) (kwargs : List (String × FilterExpr)) :
    ((∃ m, cfg.min_args = some m ∧ args.length < m) ∨
      (∃ M, cfg.max_args = some M ∧ M < args.length) →
      ∃ msg, validate_args cfg tag_name args kwargs =
        Except.error (TagError.templateSyntaxError msg)) ∧
    (validate_args cfg tag_name args kwargs = Except.ok () ↔
      ((∀ m, cfg.min_args = some m → m ≤ args.length) ∧
       (∀ M, cfg.max_args = some M → args.length ≤ M))) := by
  refine ⟨?_, validate_args_ok_iff cfg tag_name args kwargs⟩
  intro h
  apply validate_args_error_exists
  intro hok
  rw [validate_args_ok_iff] at hok
  rcases h with ⟨m, hm, hlt⟩ | ⟨M, hM, hgt⟩
  · have := hok.1 m hm; omega
  · have := hok.2 M hM; omega

/-- Witness for C1 at concrete inputs: a tag demanding one argument
rejects an empty argument list and accepts a one-element one. -/
theorem claim_C1_witness :
    (∃ msg, validate_args { min_args := some 1 } "now" [] [] =
      Except.error (TagError.templateSyntaxError msg)) ∧
    validate_args { min_args := some 1, max_args := some 2 } "now"
      [FilterExpr.var "x"] [] = Except.ok () := by
  constructor
  · exact (claim_C1 { min_args := some 1 } "now" [] []).1
      (Or.inl ⟨1, rfl, by decide⟩)
  · refine (claim_C1 { min_args := some 1, max_args := some 2 } "now"
      [FilterExpr.var "x"] []).2.mpr ⟨?_, ?_⟩
    · intro m hm
      have h : (some 1 : Option Nat) = some m := hm
      injection h with h2
      have hl : [FilterExpr.var "x"].length = 1 := rfl
      omega
    · intro M hM
      have h : (some 2 : Option Nat) = some M := hM
      injection h with h2
      have hl : [FilterExpr.var "x"].length = 1 := rfl
      omega

/-- C4: `get_request` raises `ImproperlyConfigured` exactly when the
context has no `request` variable; when one is present it returns it. -/
theorem claim_C4 (node : BaseNode) (context : Ctx) :
    ((∃ msg, node.get_request context =
        Except.error (TagError.improperlyConfigured msg)) ↔
      context.get "request" = none) ∧
    (∀ v, context.get "request" = some v →
      node.get_request context = Except.ok v) := by
  unfold BaseNode.get_request Ctx.has_key
  cases h : context.get "request" <;> simp [h]

/-- Witness for C4: a context carrying a request yields it. -/
theorem claim_C4_witness :
    BaseNode.get_request { tag_name := "t", args := [], kwargs := [] }
      { vars := [("request", Value.vInt 7)], autoescape := true } =
      Except.ok (Value.vInt 7) :=
  (claim_C4 _ _).2 (Value.vInt 7) rfl

/-- C2: `get_context` carries the parent's autoescape flag, copies the
parent's non-`None` `csrf_token` into the new context, and otherwise
binds exactly the computed data. -/
theorem claim_C2 (parent_context : Ctx) (data : List (String × Value)) :
    (get_context parent_context data).autoescape = parent_context.autoescape ∧
    (∀ v, parent_context.get "csrf_token" = some v → v ≠ Value.vNone →
      (get_context parent_context data).get "csrf_token" = some v) ∧
    (∀ k, k ≠ "csrf_token" →
      (get_context parent_context data).get k = sget data k) := by
  refine ⟨?_, ?_, ?_⟩
  · simp only [get_context]
    split_ifs <;> rfl
  · intro v hv hne
    have hv' : sget parent_context.vars "csrf_token" = some v := hv
    simp only [get_context, Ctx.getDefault, Ctx.get, Ctx.set, hv', Option.getD_some]
    rw [if_pos hne]
    simp [sget]
  · intro k hk
    have hk' : "csrf_token" ≠ k := Ne.symm hk
    simp only [get_context, Ctx.getDefault, Ctx.get, Ctx.set]
    split_ifs <;> simp [sget, hk']

/-- Witness for C2: a parent context with a CSRF token propagates it,
keeps autoescape, and exposes the computed data. -/
theorem claim_C2_witness :
    (get_context { vars := [("csrf_token", Value.vStr "tok")], autoescape := false }
      [("value", Value.vInt 5)]).get "csrf_token" = some (Value.vStr "tok") ∧
    (get_context { vars := [("csrf_token", Value.vStr "tok")], autoescape := false }
      [("value", Value.vInt 5)]).get "value" =
        sget [("value", Value.vInt 5)] "value" ∧
    (get_context { vars := [("csrf_token", Value.vStr "tok")], autoescape := false }
      [("value", Value.vInt 5)]).autoescape = false := by
  refine ⟨(claim_C2 _ _).2.1 _ rfl (by decide), (claim_C2 _ _).2.2 "value" (by decide),
    (claim_C2 _ _).1⟩

/-- A concrete external environment for witnesses and counterexamples:
every template loads to a one-node node list, and a node renders to its
own text. -/
def envEx : Env :=
  { get_template := fun _ => ["tplnode"], renderNode := fun n _ => n }

/-- C9: `get_template_name` returns the `template` keyword argument
when one was supplied, otherwise the class's `template_name` attribute,
whose default is `None`. -/
theorem claim_C9 (node : InclusionNode) (tag_args : List Value)
    (tag_kwargs : List (String × Value)) :
    (∀ v, sget tag_kwargs "template" = some v →
      node.get_template_name tag_args tag_kwargs = v) ∧
    (sget tag_kwargs "template" = none →
      node.get_template_name tag_args tag_kwargs = node.template_name) ∧
    (∀ bn : BaseNode,
      ({ toBaseNode := bn } : InclusionNode).template_name = Value.vNone) := by
  refine ⟨?_, ?_, fun _ => rfl⟩
  · intro v hv
    simp [InclusionNode.get_template_name, hv]
  · intro hv
    simp [InclusionNode.get_template_name, hv]

/-- Witness for C9: a supplied `template` kwarg wins over the
attribute; without it the attribute is returned. -/
theorem claim_C9_witness :
    InclusionNode.get_template_name
      { tag_name := "t", args := [], kwargs := [], template_name := Value.vStr "a.html" }
      [] [("template", Value.vStr "b.html")] = Value.vStr "b.html" ∧
    InclusionNode.get_template_name
      { tag_name := "t", args := [], kwargs := [], template_name := Value.vStr "a.html" }
      [] [] = Value.vStr "a.html" :=
  ⟨(claim_C9 _ [] _).1 _ (by decide), (claim_C9 _ [] []).2.1 rfl⟩

/-- C10: when `as_var` is set, `render_tag` binds exactly `as_var` in
the parent context; every other variable reads as before, and the
autoescape flag is untouched. -/
theorem claim_C10 (env : Env)
    (get_value : List Value → List (String × Value) → Value)
    (node : AssignOrInclNode) (context : Ctx)
    (tag_args : List Value) (tag_kwargs : List (String × Value))
    (s : String) (hs : node.as_var = some s) (hne : s ≠ "") :
    (AssignOrInclNode.render_tag env get_value node context tag_args tag_kwargs).2.1.get s =
      some (get_value tag_args tag_kwargs) ∧
    (∀ k, k ≠ s →
      (AssignOrInclNode.render_tag env get_value node context tag_args tag_kwargs).2.1.get k =
        context.get k) ∧
    (AssignOrInclNode.render_tag env get_value node context tag_args tag_kwargs).2.1.autoescape =
      context.autoescape := by
  refine ⟨?_, ?_, ?_⟩
  · simp [AssignOrInclNode.render_tag, hs, asVarTruthy, hne, Ctx.set, Ctx.get, sget]
  · intro k hk
    have hk' : ¬ s = k := fun h => hk h.symm
    simp [AssignOrInclNode.render_tag, hs, asVarTruthy, hne, Ctx.set, Ctx.get, sget, hk']
  · simp [AssignOrInclNode.render_tag, hs, asVarTruthy, hne, Ctx.set]

/-- Witness for C10: assigning to `out` binds it and leaves `a` alone. -/
theorem claim_C10_witness :
    (AssignOrInclNode.render_tag envEx (fun _ _ => Value.vInt 9)
      { tag_name := "t", args := [], kwargs := [], as_var := some "out" }
      { vars := [("a", Value.vInt 1)], autoescape := true } [] []).2.1.get "out" =
      some (Value.vInt 9) ∧
    (AssignOrInclNode.render_tag envEx (fun _ _ => Value.vInt 9)
      { tag_name := "t", args := [], kwargs := [], as_var := some "out" }
      { vars := [("a", Value.vInt 1)], autoescape := true } [] []).2.1.get "a" =
      some (Value.vInt 1) :=
  ⟨(claim_C10 envEx _ _ _ [] [] "out" rfl (by decide)).1,
   (claim_C10 envEx _ _ _ [] [] "out" rfl (by decide)).2.1 "a" (by decide)⟩

/-- C3: with a non-empty `as_var`, `render_tag` stores `get_value`'s
result under that name and returns the empty string; with `as_var`
unset it renders the included sub-template over the context data
`{context_value_name: get_value(...)}`. -/
theorem claim_C3 (env : Env)
    (get_value : List Value → List (String × Value) → Value)
    (node : AssignOrInclNode) (context : Ctx)
    (tag_args : List Value) (tag_kwargs : List (String × Value)) :
    (∀ s, node.as_var = some s → s ≠ "" →
      AssignOrInclNode.render_tag env get_value node context tag_args tag_kwargs =
        ("", context.set s (get_value tag_args tag_kwargs), node)) ∧
    (asVarTruthy node.as_var = false →
      (AssignOrInclNode.render_tag env get_value node context tag_args tag_kwargs).1 =
        env.renderNodelist
          (if nodelistTruthy node.nodelist then node.nodelist.getD []
           else env.get_template
             (node.toInclusionNode.get_template_name tag_args tag_kwargs))
          (get_context context
            [(node.context_value_name, get_value tag_args tag_kwargs)])) := by
  constructor
  · intro s hs hne
    simp [AssignOrInclNode.render_tag, hs, asVarTruthy, hne, Ctx.set]
  · intro hfa
    simp only [AssignOrInclNode.render_tag, hfa, Bool.false_eq_true, if_false,
      InclusionNode.render_tag, AssignOrInclNode.get_context_data]
    split_ifs <;> simp

/-- Witness for C3: the assignment branch produces no output and binds
the variable; the inclusion branch renders the template. -/
theorem claim_C3_witness :
    AssignOrInclNode.render_tag envEx (fun _ _ => Value.vInt 9)
      { tag_name := "t", args := [], kwargs := [], as_var := some "out" }
      { vars := [], autoescape := true } [] [] =
      ("", Ctx.set { vars := [], autoescape := true } "out" (Value.vInt 9),
        { tag_name := "t", args := [], kwargs := [], as_var := some "out" }) ∧
    (AssignOrInclNode.render_tag envEx (fun _ _ => Value.vInt 9)
      { tag_name := "t", args := [], kwargs := [], as_var := none }
      { vars := [], autoescape := true } [] []).1 =
      envEx.renderNodelist ["tplnode"]
        (get_context { vars := [], autoescape := true } [("value", Value.vInt 9)]) := by
  constructor
  · exact (claim_C3 envEx _ _ _ [] []).1 "out" rfl (by decide)
  · have h := (claim_C3 envEx (fun _ _ => Value.vInt 9)
      { tag_name := "t", args := [], kwargs := [], as_var := none }
      { vars := [], autoescape := true } [] []).2 rfl
    simpa [nodelistTruthy, envEx, InclusionNode.get_template_name,
      AssignOrInclNode.get_context_data] using h

/-- C5 counterexample: a first render of an inclusion node fills the
node-list cache, so the node's own fields do change. -/
theorem claim_C5_counterexample :
    (InclusionNode.render_tag envEx (fun _ _ _ => [])
      { tag_name := "t", args := [], kwargs := [] }
      { vars := [], autoescape := true } [] []).2 ≠
    ({ tag_name := "t", args := [], kwargs := [] } : InclusionNode) := by
  decide

/-- C5 (amended): a render leaves every node field unchanged except the
node-list cache, which is only ever filled in on a first render; a node
whose cache is already populated is returned entirely unchanged, so all
renders after the first observe the same node state. -/
theorem claim_C5_amended (env : Env)
    (gcd : Ctx → List Value → List (String × Value) → List (String × Value))
    (node : InclusionNode) (context : Ctx)
    (tag_args : List Value) (tag_kwargs : List (String × Value)) :
    (InclusionNode.render_tag env gcd node context tag_args tag_kwargs).2.toBaseNode =
      node.toBaseNode ∧
    (InclusionNode.render_tag env gcd node context tag_args tag_kwargs).2.template_name =
      node.template_name ∧
    (nodelistTruthy node.nodelist = true →
      (InclusionNode.render_tag env gcd node context tag_args tag_kwargs).2 = node) ∧
    (InclusionNode.render_tag env gcd
        (InclusionNode.render_tag env gcd node context tag_args tag_kwargs).2
        context tag_args tag_kwargs).2 =
      (InclusionNode.render_tag env gcd node context tag_args tag_kwargs).2 := by
  refine ⟨?_, ?_, ?_, ?_⟩
  · simp only [InclusionNode.render_tag]
    split_ifs <;> rfl
  · simp only [InclusionNode.render_tag]
    split_ifs <;> rfl
  · intro hc
    simp [InclusionNode.render_tag, hc]
  · simp only [InclusionNode.render_tag]
    by_cases h : nodelistTruthy node.nodelist
    · simp [h]
    · simp only [h, Bool.false_eq_true, if_false]
      by_cases h2 : nodelistTruthy
          (some (env.get_template (node.get_template_name tag_args tag_kwargs)))
      · simp [h2]
      · simp [h2, InclusionNode.get_template_name]

/-- Witness for C5 (amended): a node with a populated cache passes
through a render unchanged. -/
theorem claim_C5_witness :
    (InclusionNode.render_tag envEx (fun _ _ _ => [])
      { tag_name := "t", args := [], kwargs := [], nodelist := some ["x"] }
      { vars := [], autoescape := true } [] []).2 =
    ({ tag_name := "t", args := [], kwargs := [], nodelist := some ["x"] } :
      InclusionNode) :=
  (claim_C5_amended envEx _ _ _ [] []).2.2.1 (by decide)

/-- C6: `render` hands `render_tag` the stored positional expressions
resolved against the current context in their original order and the
keyword expressions resolved under their original names when the
respective `compile_*` flag is set; with a flag cleared the
corresponding arguments pass through unresolved. -/
theorem claim_C6 (cfg : TagConfig) (node : BaseNode)
    (rt : Ctx → List TagArg → List (String × TagArg) → String) (context : Ctx) :
    BaseNode.render cfg node rt context =
      rt context (node.render_args cfg context) (node.render_kwargs cfg context) ∧
    (cfg.compile_args = true → ∀ i : Nat,
      (node.render_args cfg context)[i]? =
        (node.args[i]?).map (fun expr => TagArg.resolved (expr.resolve context))) ∧
    (cfg.compile_args = false →
      node.render_args cfg context = node.args.map TagArg.unresolved) ∧
    (cfg.compile_kwargs = true →
      (node.render_kwargs cfg context).map Prod.fst = node.kwargs.map Prod.fst ∧
      ∀ i : Nat, (node.render_kwargs cfg context)[i]? =
        (node.kwargs[i]?).map (fun p => (p.1, TagArg.resolved (p.2.resolve context)))) ∧
    (cfg.compile_kwargs = false →
      node.render_kwargs cfg context =
        node.kwargs.map (fun p => (p.1, TagArg.unresolved p.2))) := by
  refine ⟨rfl, ?_, ?_, ?_, ?_⟩
  · intro h i
    simp [BaseNode.render_args, h]
  · intro h
    simp [BaseNode.render_args, h]
  · intro h
    constructor
    · simp [BaseNode.render_kwargs, h]
    · intro i
      simp [BaseNode.render_kwargs, h]
  · intro h
    simp [BaseNode.render_kwargs, h]

/-- Witness for C6: with the default flags a stored variable expression
arrives at `render_tag` resolved from the context. -/
theorem claim_C6_witness :
    (BaseNode.render_args { }
      { tag_name := "t", args := [FilterExpr.var "x"], kwargs := [] }
      { vars := [("x", Value.vInt 3)], autoescape := true })[0]? =
      some (TagArg.resolved (Value.vInt 3)) := by
  have h := (claim_C6 { }
    { tag_name := "t", args := [FilterExpr.var "x"], kwargs := [] }
    (fun _ _ _ => "") { vars := [("x", Value.vInt 3)], autoescape := true }).2.1 rfl 0
  exact h.trans (by decide)

/-- C7: the arity check runs during `parse`, before a node is
constructed: a failing `validate_args` makes `parse` re-raise that very
error, and any node `parse` does return passed `validate_args`. -/
theorem claim_C7 (cfg : TagConfig)
    (ptk : List String → Bool → Bool → Except TagError ParsedTag)
    (pav : Except TagError (Option String)) :
    (∀ p, ptk cfg.allowed_kwargs cfg.compile_args cfg.compile_kwargs = Except.ok p →
      ∀ e, validate_args cfg p.tag_name p.args p.kwargs = Except.error e →
        BaseNode.parse cfg ptk = Except.error e) ∧
    (∀ node, BaseNode.parse cfg ptk = Except.ok node →
      validate_args cfg node.tag_name node.args node.kwargs = Except.ok ()) ∧
    (∀ av p, pav = Except.ok av →
      ptk (AssignOrInclNode.parse_allowed_kwargs cfg)
          cfg.compile_args cfg.compile_kwargs = Except.ok p →
      ∀ e, validate_args cfg p.tag_name p.args [] = Except.error e →
        AssignOrInclNode.parse cfg pav ptk = Except.error e) ∧
    (∀ node, AssignOrInclNode.parse cfg pav ptk = Except.ok node →
      validate_args cfg node.tag_name node.args [] = Except.ok ()) := by
  refine ⟨?_, ?_, ?_, ?_⟩
  · intro p hp e he
    simp [BaseNode.parse, hp, he]
  · intro node h
    unfold BaseNode.parse at h
    cases hp : ptk cfg.allowed_kwargs cfg.compile_args cfg.compile_kwargs with
    | error e => simp [hp] at h
    | ok p =>
      simp only [hp] at h
      cases hv : validate_args cfg p.tag_name p.args p.kwargs with
      | error e => simp [hv] at h
      | ok u =>
        simp only [hv] at h
        cases h
        exact hv
  · intro av p hpav hp e he
    simp [AssignOrInclNode.parse, hpav, hp, he]
  · intro node h
    unfold AssignOrInclNode.parse at h
    cases hpav : pav with
    | error e => simp [hpav] at h
    | ok av =>
      simp only [hpav] at h
      cases hp : ptk (AssignOrInclNode.parse_allowed_kwargs cfg)
          cfg.compile_args cfg.compile_kwargs with
      | error e => simp [hp] at h
      | ok p =>
        simp only [hp] at h
        cases hv : validate_args cfg p.tag_name p.args [] with
        | error e => simp [hv] at h
        | ok u =>
          simp only [hv] at h
          cases h
          exact hv

/-- Witness for C7: a tag demanding one argument makes `parse` raise
the arity error on an empty invocation, and a permissive tag's parsed
node passes validation. -/
theorem claim_C7_witness :
    BaseNode.parse { min_args := some 1 }
      (fun _ _ _ => Except.ok { tag_name := "t", args := [], kwargs := [] }) =
      Except.error (TagError.templateSyntaxError
        "'t' tag requires at least 1 argument") ∧
    validate_args { } "t" [] [] = Except.ok () := by
  constructor
  · exact (claim_C7 { min_args := some 1 }
      (fun _ _ _ => Except.ok { tag_name := "t", args := [], kwargs := [] })
      (Except.ok none)).1 { tag_name := "t", args := [], kwargs := [] } rfl _ rfl
  · exact (claim_C7 { }
      (fun _ _ _ => Except.ok { tag_name := "t", args := [], kwargs := [] })
      (Except.ok none)).2.2.2
      { tag_name := "t", args := [], kwargs := [], as_var := none } rfl

/-- C8: `BaseAssignmentOrInclusionNode.parse` accepts the keyword
`template` on top of the declared `allowed_kwargs`, consults the
external token parsing only at that extended keyword list, and its
arity check depends solely on the positional-argument count — parsed
keyword arguments never count toward `min_args`/`max_args`. -/
theorem claim_C8 (cfg : TagConfig) (pav : Except TagError (Option String))
    (ptk ptk' : List String → Bool → Bool → Except TagError ParsedTag) :
    "template" ∈ AssignOrInclNode.parse_allowed_kwargs cfg ∧
    (∀ k ∈ cfg.allowed_kwargs, k ∈ AssignOrInclNode.parse_allowed_kwargs cfg) ∧
    (ptk (AssignOrInclNode.parse_allowed_kwargs cfg)
        cfg.compile_args cfg.compile_kwargs =
      ptk' (AssignOrInclNode.parse_allowed_kwargs cfg)
        cfg.compile_args cfg.compile_kwargs →
      AssignOrInclNode.parse cfg pav ptk = AssignOrInclNode.parse cfg pav ptk') ∧
    (∀ av p, pav = Except.ok av →
      ptk (AssignOrInclNode.parse_allowed_kwargs cfg)
          cfg.compile_args cfg.compile_kwargs = Except.ok p →
      ((∃ node, AssignOrInclNode.parse cfg pav ptk = Except.ok node) ↔
        ((∀ m, cfg.min_args = some m → m ≤ p.args.length) ∧
         (∀ M, cfg.max_args = some M → p.args.length ≤ M)))) := by
  refine ⟨?_, ?_, ?_, ?_⟩
  · simp [AssignOrInclNode.parse_allowed_kwargs]
  · intro k hk
    simp [AssignOrInclNode.parse_allowed_kwargs, hk]
  · intro h
    unfold AssignOrInclNode.parse
    rw [h]
  · intro av p hpav hp
    constructor
    · rintro ⟨node, hnode⟩
      unfold AssignOrInclNode.parse at hnode
      simp only [hpav, hp] at hnode
      cases hv : validate_args cfg p.tag_name p.args [] with
      | error e => simp [hv] at hnode
      | ok u =>
        exact (validate_args_ok_iff cfg p.tag_name p.args []).mp (by cases u; exact hv)
    · intro hb
      have hv : validate_args cfg p.tag_name p.args [] = Except.ok () :=
        (validate_args_ok_iff _ _ _ _).mpr hb
      refine ⟨{ tag_name := p.tag_name, args := p.args,
                kwargs := p.kwargs, as_var := av }, ?_⟩
      unfold AssignOrInclNode.parse
      simp only [hpav, hp, hv]

/-- Witness for C8: a tag invocation whose parsed result carries a
keyword argument still passes the arity check of a zero-argument tag. -/
theorem claim_C8_witness :
    "template" ∈ AssignOrInclNode.parse_allowed_kwargs { } ∧
    (∃ node, AssignOrInclNode.parse { } (Except.ok none)
      (fun _ _ _ => Except.ok
        { tag_name := "t", args := [],
          kwargs := [("template", FilterExpr.lit (Value.vStr "x.html"))] }) =
      Except.ok node) := by
  constructor
  · exact (claim_C8 { } (Except.ok none)
      (fun _ _ _ => Except.ok { tag_name := "t", args := [], kwargs := [] })
      (fun _ _ _ => Except.ok { tag_name := "t", args := [], kwargs := [] })).1
  · refine ((claim_C8 { } (Except.ok none)
      (fun _ _ _ => Except.ok
        { tag_name := "t", args := [],
          kwargs := [("template", FilterExpr.lit (Value.vStr "x.html"))] })
      (fun _ _ _ => Except.ok
        { tag_name := "t", args := [],
          kwargs := [("template", FilterExpr.lit (Value.vStr "x.html"))] })).2.2.2
      none _ rfl rfl).mpr ⟨?_, ?_⟩
    · intro m hm
      have h : (some 0 : Option Nat) = some m := hm
      injection h with h2
      simp [← h2]
    · intro M hM
      have h : (some 0 : Option Nat) = some M := hM
      injection h with h2
      simp [← h2]
